import Mathlib

/-!
Verification development for the standalone OAuth 2.0 client in
`app/core/oauth.py`.  The Python module is shallowly embedded: token
records and request bodies (Python dicts) become association lists of
`String × JsonValue`, exceptions become an explicit error type threaded
through `Except`, the wall clock and the HTTP response of the token
endpoint become explicit parameters, and mutation of the client object
(`self._code_verifier`, the token store slot) becomes explicit state
passing.  Every definition follows the corresponding Python function
line by line; source line numbers are cited in the doc comments.
-/

namespace OAuthModel

/-- A JSON-representable Python value, as far as the oauth module ever
puts one into a token dict or a request body: strings, integers,
booleans and `None`.  Timestamps (`time.time()`) are modelled as integer
seconds. -/
inductive JsonValue where
  | str (s : String)
  | num (n : Int)
  | bool (b : Bool)
  | null
deriving DecidableEq, Repr

/-- Python truthiness of a value (`if not x`): `None`, `False`, `""`
and `0` are falsy. -/
def JsonValue.truthy : JsonValue → Bool
  | .str s => !(s == "")
  | .num n => !(n == 0)
  | .bool b => b
  | .null => false

/-- Rendering of a value inside an f-string, as Python's `str()` does:
`None` prints as `None`, booleans as `True`/`False`. -/
def JsonValue.render : JsonValue → String
  | .str s => s
  | .num n => toString n
  | .bool b => if b then "True" else "False"
  | .null => "None"

/-- Whether a value is Python's `None`. -/
def JsonValue.isNull : JsonValue → Bool
  | .null => true
  | _ => false

/-- Python truthiness of an optional string argument (`if not code`):
absent (`None`) and the empty string are falsy. -/
def truthyS : Option String → Bool
  | none => false
  | some s => !(s == "")

/-- Association-list lookup, the model of `d[k]` / `d.get(k)` on a
Python dict. -/
def alist_get {α : Type} (l : List (String × α)) (k : String) : Option α :=
  (l.find? (fun p => p.1 == k)).map (fun p => p.2)

/-- Whether a key is present, the model of `k in d`. -/
def alist_has {α : Type} (l : List (String × α)) (k : String) : Bool :=
  l.any (fun p => p.1 == k)

/-- Insertion with Python-dict semantics: an existing key keeps its
position and takes the new value, a new key is appended. -/
def alist_insert {α : Type} (l : List (String × α)) (k : String) (v : α) :
    List (String × α) :=
  if alist_has l k then l.map (fun p => if p.1 == k then (k, v) else p)
  else l ++ [(k, v)]

/-- Key removal, the model of `d.pop(k)`'s effect and of deleting a
file from a directory. -/
def alist_erase {α : Type} (l : List (String × α)) (k : String) :
    List (String × α) :=
  l.filter (fun p => !(p.1 == k))

/-- The model of Python's `d.update(kvs)`: every binding of `kvs` is
inserted into `d` in order, overriding existing keys. -/
def alist_update {α : Type} (l kvs : List (String × α)) : List (String × α) :=
  kvs.foldl (fun acc p => alist_insert acc p.1 p.2) l

/-- The keys of a dict, in insertion order. -/
def alist_keys {α : Type} (l : List (String × α)) : List String :=
  l.map (fun p => p.1)

/-- A Python dict of JSON values: a token record, a request body, or a
`**kwargs` mapping.  Insertion order is kept, as Python dicts do. -/
abbrev Dict := List (String × JsonValue)

/-- A token record is exactly the dict the token endpoint returned
(plus the derived `expires_at`); the module has no richer type
(src/app/core/oauth.py types tokens as `Dict[str, Any]`). -/
abbrev TokenRecord := Dict

/-- The exceptions the embedded code can raise.  `oauth2Error` models
`OAuth2Error` (src line 16), `tokenError` its subclass `TokenError`
(src line 21); `jsonDecodeError` models the `requests` JSON decode
exception escaping `response.json()` on a 200 response with a
non-JSON body, which is not an `OAuth2Error` and is never caught by
the module; `keyError` models a `KeyError` from a missing
`access_token` in `OAuth2Session.request`; `valueError` models the
`ValueError`/`TypeError` of `int(...)` on a non-numeric
`expires_in`. -/
inductive PyErr where
  | oauth2Error (msg : String)
  | tokenError (msg : String)
  | jsonDecodeError
  | keyError (k : String)
  | valueError
deriving DecidableEq, Repr

/-- Whether `except OAuth2Error` catches the error: `TokenError` is a
subclass of `OAuth2Error`, the other two are unrelated exceptions. -/
def PyErr.isOAuth2Error : PyErr → Bool
  | .oauth2Error _ => true
  | .tokenError _ => true
  | .jsonDecodeError => false
  | .keyError _ => false
  | .valueError => false

/-- The message of the exception, as `str(e)` renders it. -/
def PyErr.msg : PyErr → String
  | .oauth2Error m => m
  | .tokenError m => m
  | .jsonDecodeError => "invalid json"
  | .keyError k => k
  | .valueError => "invalid literal"

/-- The dynamic class of a raised exception, used to state that two
failures are (in)distinguishable by kind alone. -/
inductive ErrKind where
  | oauth2
  | token
  | jsonDecode
  | key
  | value
deriving DecidableEq, Repr

/-- The class of an exception. -/
def PyErr.kind : PyErr → ErrKind
  | .oauth2Error _ => .oauth2
  | .tokenError _ => .token
  | .jsonDecodeError => .jsonDecode
  | .keyError _ => .key
  | .valueError => .value

/-- The immutable construction arguments of `OAuth2Client.__init__`
(src lines 35..66). -/
structure ClientConfig where
  client_id : String
  client_secret : Option String
  token_url : Option String
  auth_url : Option String
  redirect_uri : Option String
  scope : List String
deriving DecidableEq, Repr

/-- The mutable state of one `OAuth2Client`: the PKCE verifier slot
`self._code_verifier` (src line 66) and the single logical token slot
of the injected storage.  Both `InMemoryTokenStorage` and
`FileTokenStorage` hold exactly one optional record, so the store is
its slot. -/
structure ClientState where
  config : ClientConfig
  code_verifier : Option String
  store : Option TokenRecord
deriving DecidableEq, Repr

/-! ### PKCE generator (src lines 278..287)

`hashlib.sha256` computes FIPS 180-4 SHA-256, embedded here concretely
over byte lists (`Nat` values below 256, word arithmetic reduced mod
2^32); `base64.urlsafe_b64encode` is RFC 4648 base64 with the `-_`
alphabet; `.encode('utf-8')` is standard UTF-8. -/

/-- Reduce a word to 32 bits. -/
def w32 (x : Nat) : Nat := x % 4294967296

/-- Right rotation of a 32-bit word. -/
def rotr32 (n x : Nat) : Nat := w32 ((x >>> n) ||| (x <<< (32 - n)))

/-- The 64 SHA-256 round constants of FIPS 180-4, written in
decimal. -/
def sha256K : List Nat :=
  [1116352408, 1899447441, 3049323471, 3921009573, 961987163, 1508970993,
   2453635748, 2870763221, 3624381080, 310598401, 607225278, 1426881987,
   1925078388, 2162078206, 2614888103, 3248222580, 3835390401, 4022224774,
   264347078, 604807628, 770255983, 1249150122, 1555081692, 1996064986,
   2554220882, 2821834349, 2952996808, 3210313671, 3336571891, 3584528711,
   113926993, 338241895, 666307205, 773529912, 1294757372, 1396182291,
   1695183700, 1986661051, 2177026350, 2456956037, 2730485921, 2820302411,
   3259730800, 3345764771, 3516065817, 3600352804, 4094571909, 275423344,
   430227734, 506948616, 659060556, 883997877, 958139571, 1322822218,
   1537002063, 1747873779, 1955562222, 2024104815, 2227730452, 2361852424,
   2428436474, 2756734187, 3204031479, 3329325298]

/-- The SHA-256 initial hash value of FIPS 180-4, written in
decimal. -/
def sha256H0 : List Nat :=
  [1779033703, 3144134277, 1013904242, 2773480762,
   1359893119, 2600822924, 528734635, 1541459225]

/-- Big-endian byte decomposition of a number into `k` bytes. -/
def beBytes (k n : Nat) : List Nat :=
  (List.range k).map (fun i => n / 256 ^ (k - 1 - i) % 256)

/-- SHA-256 message padding: a `0x80` byte, zeros to 56 mod 64, and the
bit length as 8 big-endian bytes. -/
def sha256Pad (msg : List Nat) : List Nat :=
  let len := msg.length
  let k := (120 - ((len + 1) % 64)) % 64
  msg ++ [128] ++ List.replicate k 0 ++ beBytes 8 (8 * len)

/-- Group bytes into big-endian 32-bit words. -/
def bytesToWords32 : List Nat → List Nat
  | a :: b :: c :: d :: rest =>
    (a * 16777216 + b * 65536 + c * 256 + d) :: bytesToWords32 rest
  | _ => []

/-- The small sigma-0 function of SHA-256. -/
def ssig0 (x : Nat) : Nat := (rotr32 7 x) ^^^ (rotr32 18 x) ^^^ (x >>> 3)

/-- The small sigma-1 function of SHA-256. -/
def ssig1 (x : Nat) : Nat := (rotr32 17 x) ^^^ (rotr32 19 x) ^^^ (x >>> 10)

/-- The big sigma-0 function of SHA-256. -/
def bsig0 (x : Nat) : Nat := (rotr32 2 x) ^^^ (rotr32 13 x) ^^^ (rotr32 22 x)

/-- The big sigma-1 function of SHA-256. -/
def bsig1 (x : Nat) : Nat := (rotr32 6 x) ^^^ (rotr32 11 x) ^^^ (rotr32 25 x)

/-- The 64-entry message schedule of one block. -/
def sha256Schedule (block : List Nat) : List Nat :=
  (List.range 64).foldl
    (fun ws t =>
      if t < 16 then ws ++ [block.getD t 0]
      else ws ++ [w32 (ssig1 (ws.getD (t - 2) 0) + ws.getD (t - 7) 0 +
        ssig0 (ws.getD (t - 15) 0) + ws.getD (t - 16) 0)])
    []

/-- One SHA-256 compression step over the eight working variables. -/
def sha256Step (ws : List Nat) (st : List Nat) (t : Nat) : List Nat :=
  match st with
  | [a, b, c, d, e, f, g, hh] =>
    let ch := (e &&& f) ^^^ ((e ^^^ 4294967295) &&& g)
    let maj := (a &&& b) ^^^ (a &&& c) ^^^ (b &&& c)
    let t1 := w32 (hh + bsig1 e + ch + sha256K.getD t 0 + ws.getD t 0)
    let t2 := w32 (bsig0 a + maj)
    [w32 (t1 + t2), a, b, c, w32 (d + t1), e, f, g]
  | other => other

/-- Compression of one 64-byte block into the running hash. -/
def sha256Compress (h : List Nat) (block : List Nat) : List Nat :=
  let ws := sha256Schedule (bytesToWords32 block)
  let fin := (List.range 64).foldl (sha256Step ws) h
  (h.zip fin).map (fun p => w32 (p.1 + p.2))

/-- Split a byte list into 64-byte chunks, with the list length as
structural fuel (one chunk consumes at least one byte, so the fuel is
ample). -/
def chunks64Go : Nat → List Nat → List (List Nat)
  | 0, _ => []
  | _ + 1, [] => []
  | n + 1, b :: bs => ((b :: bs).take 64) :: chunks64Go n ((b :: bs).drop 64)

/-- Split a byte list into 64-byte chunks. -/
def chunks64 (bs : List Nat) : List (List Nat) := chunks64Go bs.length bs

/-- The SHA-256 digest (32 bytes) of a byte string. -/
def sha256 (msg : List Nat) : List Nat :=
  let hfin := (chunks64 (sha256Pad msg)).foldl sha256Compress sha256H0
  (hfin.map (beBytes 4)).flatten

/-- UTF-8 encoding of one character. -/
def utf8EncodeChar (c : Char) : List Nat :=
  let n := c.toNat
  if n < 128 then [n]
  else if n < 2048 then [192 + n / 64, 128 + n % 64]
  else if n < 65536 then [224 + n / 4096, 128 + n / 64 % 64, 128 + n % 64]
  else [240 + n / 262144, 128 + n / 4096 % 64, 128 + n / 64 % 64, 128 + n % 64]

/-- UTF-8 encoding of a string (the model of `s.encode('utf-8')`). -/
def utf8Encode (s : String) : List Nat := (s.data.map utf8EncodeChar).flatten

/-- The URL-safe base64 alphabet of RFC 4648. -/
def b64Alphabet : List Char :=
  "ABCDEFGHIJKLMNOPQRSTUVWXYZabcdefghijklmnopqrstuvwxyz0123456789-_".data

/-- The alphabet character of a 6-bit group. -/
def b64Char (n : Nat) : Char := b64Alphabet.getD n 'A'

/-- The model of `base64.urlsafe_b64encode`, with `=` padding. -/
def urlsafe_b64encode : List Nat → List Char
  | a :: b :: c :: rest =>
    let n := a * 65536 + b * 256 + c
    b64Char (n / 262144) :: b64Char (n / 4096 % 64) :: b64Char (n / 64 % 64) ::
      b64Char (n % 64) :: urlsafe_b64encode rest
  | [a, b] =>
    let n := a * 65536 + b * 256
    [b64Char (n / 262144), b64Char (n / 4096 % 64), b64Char (n / 64 % 64), '=']
  | [a] =>
    let n := a * 65536
    [b64Char (n / 262144), b64Char (n / 4096 % 64), '=', '=']
  | [] => []

/-- The model of Python's `.rstrip('=')`: drop every trailing `=`. -/
def rstripEq (cs : List Char) : List Char :=
  (cs.reverse.dropWhile (fun c => c == '=')).reverse

/-- OAuth2Client._generate_code_challenge (src lines 283..287):
`urlsafe_b64encode(sha256(verifier.encode('utf-8')).digest())` with the
padding stripped. -/
def generate_code_challenge (verifier : String) : String :=
  String.mk (rstripEq (urlsafe_b64encode (sha256 (utf8Encode verifier))))

/-- OAuth2Client._generate_code_verifier (src lines 278..281), with the
output of `secrets.token_bytes(length)` passed in explicitly. -/
def generate_code_verifier (randomBytes : List Nat) : String :=
  String.mk (rstripEq (urlsafe_b64encode randomBytes))

/-- The challenge derivation exactly as the spec words it (section 4.1):
the SHA-256 digest of the verifier's UTF-8 bytes, URL-safe-base64
encoded, padding stripped.  Stated separately so the code-side
definition can be proved to refine it. -/
def spec_code_challenge (verifier : String) : String :=
  String.mk (rstripEq (urlsafe_b64encode (sha256 (utf8Encode verifier))))

/-! ### The token endpoint exchange (src lines 111..220) -/

/-- The explicit arguments and `**kwargs` of one `fetch_token` call
(src lines 111..117). -/
structure FetchArgs where
  code : Option String
  username : Option String
  password : Option String
  grant_type : String
  kwargs : Dict
deriving DecidableEq, Repr

/-- Joined scope string, the model of `" ".join(self.scope)`. -/
def joinScope (scope : List String) : String := String.intercalate " " scope

/-- The client-secret handling of `fetch_token` (src lines 140..147):
when a secret is configured it goes into the body, unless the grant is
`authorization_code` and the kwargs flag `use_basic_auth` is truthy, in
which case it goes into an HTTP Basic `(client_id, client_secret)`
pair instead.  Returns the possibly extended body and the optional
Basic pair. -/
def secret_step (cfg : ClientConfig) (grant : String) (kwargs : Dict)
    (data : Dict) : Dict × Option (String × String) :=
  let useBasic := ((alist_get kwargs "use_basic_auth").getD .null).truthy
  if truthyS cfg.client_secret then
    if grant != "authorization_code" || !useBasic then
      (alist_insert data "client_secret" (.str (cfg.client_secret.getD "")), none)
    else
      (data, some (cfg.client_id, cfg.client_secret.getD ""))
  else (data, none)

/-- Request-body construction of `fetch_token` (src lines 132..187),
up to but not including the HTTP POST: validates the configuration and
the grant-specific arguments, assembles the `data` dict, decides
between body and HTTP-Basic client-secret transmission, consumes the
PKCE verifier on the authorization-code path, and merges the remaining
kwargs last (`data.update(kwargs)`).  Returns the body, the optional
`(client_id, client_secret)` Basic-auth pair, and the new value of
`self._code_verifier`. -/
def build_token_request (cfg : ClientConfig) (cv : Option String)
    (stored : Option TokenRecord) (args : FetchArgs) :
    Except PyErr (Dict × Option (String × String) × Option String) :=
  if !truthyS cfg.token_url then
    .error (.oauth2Error "Token URL not provided")
  else
    let data : Dict :=
      [("grant_type", .str args.grant_type), ("client_id", .str cfg.client_id)]
    let secretStep := secret_step cfg args.grant_type args.kwargs data
    let data := secretStep.1
    let auth := secretStep.2
    let branch : Except PyErr (Dict × Dict × Option String) :=
      if args.grant_type == "authorization_code" then
        if !truthyS args.code then
          .error (.oauth2Error "Authorization code required")
        else
          let data := alist_insert data "code" (.str (args.code.getD ""))
          let data := alist_insert data "redirect_uri"
            (match cfg.redirect_uri with | some r => .str r | none => .null)
          if truthyS cv then
            .ok (alist_insert data "code_verifier" (.str (cv.getD "")),
              args.kwargs, none)
          else
            .ok (data, args.kwargs, cv)
      else if args.grant_type == "password" then
        if !truthyS args.username || !truthyS args.password then
          .error (.oauth2Error "Username and password required for password grant")
        else
          let data := alist_insert data "username" (.str (args.username.getD ""))
          let data := alist_insert data "password" (.str (args.password.getD ""))
          let data :=
            if cfg.scope != [] then
              alist_insert data "scope" (.str (joinScope cfg.scope))
            else data
          .ok (data, args.kwargs, cv)
      else if args.grant_type == "client_credentials" then
        let data :=
          if cfg.scope != [] then
            alist_insert data "scope" (.str (joinScope cfg.scope))
          else data
        .ok (data, args.kwargs, cv)
      else if args.grant_type == "refresh_token" then
        let krt := (alist_get args.kwargs "refresh_token").getD .null
        if !krt.truthy then
          match stored with
          | none => .error (.oauth2Error "Refresh token required")
          | some st =>
            if st == [] || !alist_has st "refresh_token" then
              .error (.oauth2Error "Refresh token required")
            else
              .ok (alist_insert data "refresh_token"
                ((alist_get st "refresh_token").getD .null), args.kwargs, cv)
        else
          .ok (alist_insert data "refresh_token" krt,
            alist_erase args.kwargs "refresh_token", cv)
      else
        .ok (data, args.kwargs, cv)
    match branch with
    | .error e => .error e
    | .ok (data, kwargsLeft, cv2) => .ok (alist_update data kwargsLeft, auth, cv2)

/-- The token endpoint's answer to the POST, as `requests` exposes it:
the status code, the body parsed as a JSON object when it is one
(`response.json()` raises otherwise), and the raw body text. -/
structure HttpResponse where
  status_code : Nat
  json : Option Dict
  text : String
deriving DecidableEq, Repr

/-- The body a form-encoded POST actually carries: `requests` drops
every `None`-valued entry of the `data` dict when it url-encodes it. -/
def wire_body (d : Dict) : Dict := d.filter (fun p => !(p.2.isNull))

/-- The provider error description extracted on a non-success response
(src lines 201..207): `error_description`, else `error`, else
`"Unknown error"` when the body parses as JSON; the raw body text when
it does not (and `"Unknown error"` when the text is empty too). -/
def error_desc_of (resp : HttpResponse) : String :=
  match resp.json with
  | some d =>
    (((alist_get d "error_description").getD
      ((alist_get d "error").getD (.str "Unknown error")))).render
  | none => if resp.text == "" then "Unknown error" else resp.text

/-- Python's `int(...)` on a JSON value: integers pass through,
booleans coerce, numeric strings parse, anything else raises. -/
def pyIntOf : JsonValue → Option Int
  | .num n => some n
  | .bool b => some (if b then 1 else 0)
  | .str s => s.trim.toInt?
  | .null => none

/-- Response handling of `fetch_token` (src lines 200..220): a
non-200 status raises `TokenError` with the provider description and
the status code; on 200 the JSON body becomes the token record,
`expires_at` is derived as `now + int(expires_in)` when `expires_in`
is present and `expires_at` absent, and the record is the new store
content. -/
def process_token_response (resp : HttpResponse) (now : Int) :
    Except PyErr TokenRecord :=
  if resp.status_code != 200 then
    .error (.tokenError ("Error fetching token: " ++ error_desc_of resp ++
      " (HTTP " ++ toString resp.status_code ++ ")"))
  else
    match resp.json with
    | none => .error .jsonDecodeError
    | some token_data =>
      if alist_has token_data "expires_in" && !alist_has token_data "expires_at" then
        match pyIntOf ((alist_get token_data "expires_in").getD .null) with
        | none => .error .valueError
        | some n => .ok (alist_insert token_data "expires_at" (.num (now + n)))
      else .ok token_data

/-- Everything one `fetch_token` call leaves behind: the returned
record or the raised exception, the final client state (verifier slot
and store slot), and the request that was actually POSTed (`none` when
construction failed before the HTTP call). -/
structure FetchOutcome where
  result : Except PyErr TokenRecord
  state : ClientState
  sent : Option (Dict × Option (String × String))
deriving Repr

/-- OAuth2Client.fetch_token (src lines 111..220) as one state
transformer: build the request (raising before any network traffic on
a configuration or argument error, in which case the verifier slot is
untouched), record the consumed verifier, then process the endpoint's
response, persisting the new record only on success. -/
def fetch_token (st : ClientState) (args : FetchArgs)
    (resp : HttpResponse) (now : Int) : FetchOutcome :=
  match build_token_request st.config st.code_verifier st.store args with
  | .error e => { result := .error e, state := st, sent := none }
  | .ok (data, auth, cv2) =>
    let st1 : ClientState := { st with code_verifier := cv2 }
    match process_token_response resp now with
    | .error e => { result := .error e, state := st1, sent := some (data, auth) }
    | .ok td =>
      { result := .ok td, state := { st1 with store := some td },
        sent := some (data, auth) }

/-- OAuth2Client.refresh_token (src lines 222..232): sugar for
`fetch_token(grant_type="refresh_token", refresh_token=refresh_token)`.
Note that the keyword is passed along even when it is `None`, so the
kwargs dict always carries a `refresh_token` key here. -/
def refresh_token (st : ClientState) (rt : Option String)
    (resp : HttpResponse) (now : Int) : FetchOutcome :=
  fetch_token st
    { code := none, username := none, password := none,
      grant_type := "refresh_token",
      kwargs := [("refresh_token",
        match rt with | some s => .str s | none => .null)] }
    resp now

/-! ### Expiry check and get_token (src lines 234..276) -/

/-- OAuth2Client._is_token_expired (src lines 270..276): no
`expires_at` key means never expired, otherwise expired exactly when
`expires_at <= now + 10`.  A non-numeric `expires_at` would raise a
`TypeError` in Python; no record produced by `fetch_token`'s
derivation has one and every theorem below stays inside numeric or
absent `expires_at`, so that dead branch is folded into `false`. -/
def is_token_expired (token : TokenRecord) (now : Int) : Bool :=
  match alist_get token "expires_at" with
  | none => false
  | some (.num e) => decide (e ≤ now + 10)
  | some (.bool b) => decide ((if b then (1 : Int) else 0) ≤ now + 10)
  | some _ => false

/-- OAuth2Client.get_token (src lines 234..255): load the record from
the store, raise `TokenError("No token available")` on a falsy slot
(absent or empty record); when `auto_refresh` is set and the record is
expired, call `refresh_token()` with no argument, re-raising any
`OAuth2Error` it throws as `TokenError("Failed to refresh token: ...")`
and passing other exceptions through. -/
def get_token (st : ClientState) (auto_refresh : Bool)
    (resp : HttpResponse) (now : Int) : Except PyErr TokenRecord × ClientState :=
  match st.store with
  | none => (.error (.tokenError "No token available"), st)
  | some tok =>
    if tok == ([] : Dict) then (.error (.tokenError "No token available"), st)
    else if auto_refresh && is_token_expired tok now then
      let o := refresh_token st none resp now
      match o.result with
      | .ok t => (.ok t, o.state)
      | .error e =>
        if e.isOAuth2Error then
          (.error (.tokenError ("Failed to refresh token: " ++ e.msg)), o.state)
        else (.error e, o.state)
    else (.ok tok, st)

/-! ### Authorization URL construction (src lines 68..109) -/

/-- A character `urllib.parse.quote_plus` leaves as itself. -/
def isUrlSafeChar (c : Char) : Bool :=
  (c ≥ 'a' && c ≤ 'z') || (c ≥ 'A' && c ≤ 'Z') || (c ≥ '0' && c ≤ '9') ||
  c == '_' || c == '.' || c == '-' || c == '~'

/-- An upper-case hexadecimal digit. -/
def hexDigitUpper (n : Nat) : Char :=
  "0123456789ABCDEF".data.getD n '0'

/-- Percent-encoding of one byte. -/
def percentEncodeByte (b : Nat) : List Char :=
  ['%', hexDigitUpper (b / 16), hexDigitUpper (b % 16)]

/-- The model of `urllib.parse.quote_plus`: safe characters kept,
space as `+`, everything else percent-encoded bytewise. -/
def quote_plus (s : String) : String :=
  String.mk ((s.data.map (fun c =>
    if isUrlSafeChar c then [c]
    else if c == ' ' then ['+']
    else ((utf8EncodeChar c).map percentEncodeByte).flatten)).flatten)

/-- The model of `urllib.parse.urlencode` over the params dict. -/
def urlencode (params : Dict) : String :=
  String.intercalate "&"
    (params.map (fun p => quote_plus p.1 ++ "=" ++ quote_plus p.2.render))

/-- OAuth2Client.create_authorization_url (src lines 68..109), with the
two random draws — the generated `state` (`str(uuid.uuid4())`) and the
64 random verifier bytes (`secrets.token_bytes`) — passed in
explicitly.  Returns the URL, the effective state string, and the new
client state, whose verifier slot is set when `use_pkce` is true. -/
def create_authorization_url (st : ClientState) (state : Option String)
    (use_pkce : Bool) (kwargs : Dict) (fresh_state : String)
    (verifier_bytes : List Nat) :
    Except PyErr ((String × String) × ClientState) :=
  if !truthyS st.config.auth_url then
    .error (.oauth2Error "Authorization URL not provided")
  else if !truthyS st.config.redirect_uri then
    .error (.oauth2Error "Redirect URI not provided")
  else
    let stateVal := if truthyS state then state.getD "" else fresh_state
    let params : Dict :=
      [("response_type", .str "code"),
       ("client_id", .str st.config.client_id),
       ("redirect_uri", .str (st.config.redirect_uri.getD "")),
       ("state", .str stateVal)]
    let params :=
      if st.config.scope != [] then
        alist_insert params "scope" (.str (joinScope st.config.scope))
      else params
    let pkceStep : Dict × Option String :=
      if use_pkce then
        let v := generate_code_verifier verifier_bytes
        (alist_insert
          (alist_insert params "code_challenge" (.str (generate_code_challenge v)))
          "code_challenge_method" (.str "S256"),
         some v)
      else (params, st.code_verifier)
    let params := alist_update pkceStep.1 kwargs
    .ok ((st.config.auth_url.getD "" ++ "?" ++ urlencode params, stateVal),
      { st with code_verifier := pkceStep.2 })

/-! ### Token stores (src lines 290..362)

Both implementations persist exactly one optional record.
`FileTokenStorage` serializes with `json.dump` and parses back with
`json.load`, which are mutually inverse on the JSON-representable
token dicts the module stores, so the directory is modelled as a map
from path to the parsed record; an I/O failure raises `OAuth2Error`
and changes nothing, and is outside the modelled runs. -/

/-- The fresh `InMemoryTokenStorage` slot (src line 310). -/
def InMemoryTokenStorage.initial : Option TokenRecord := none

/-- InMemoryTokenStorage.save_token (src lines 312..314). -/
def InMemoryTokenStorage.save_token (_ : Option TokenRecord)
    (t : TokenRecord) : Option TokenRecord := some t

/-- InMemoryTokenStorage.get_token (src lines 316..318). -/
def InMemoryTokenStorage.get_token (s : Option TokenRecord) :
    Option TokenRecord := s

/-- InMemoryTokenStorage.delete_token (src lines 320..322). -/
def InMemoryTokenStorage.delete_token (_ : Option TokenRecord) :
    Option TokenRecord := none

/-- A directory of token files: path to stored record. -/
abbrev FileSys := List (String × TokenRecord)

/-- FileTokenStorage.save_token (src lines 337..343): write the record
to the file, creating or overwriting it. -/
def FileTokenStorage.save_token (fs : FileSys) (path : String)
    (t : TokenRecord) : FileSys := alist_insert fs path t

/-- FileTokenStorage.get_token (src lines 345..353): read and parse
the file; a missing file (`FileNotFoundError`) is `None`, not an
error. -/
def FileTokenStorage.get_token (fs : FileSys) (path : String) :
    Option TokenRecord := alist_get fs path

/-- FileTokenStorage.delete_token (src lines 355..362): remove the
file when it exists, do nothing when it does not. -/
def FileTokenStorage.delete_token (fs : FileSys) (path : String) : FileSys :=
  if alist_has fs path then alist_erase fs path else fs

/-! ### OAuth2Session (src lines 365..428) -/

/-- An outbound resource request as handed to the HTTP transport. -/
structure HttpRequest where
  method : String
  url : String
  headers : Dict
deriving DecidableEq, Repr

/-- The Authorization header value OAuth2Session.request builds (src
line 405): `f"{token.get('token_type', 'Bearer')} {token['access_token']}"`,
a `KeyError` when the record has no `access_token`. -/
def auth_header_value (token : TokenRecord) : Except PyErr String :=
  match alist_get token "access_token" with
  | none => .error (.keyError "access_token")
  | some a =>
    .ok (((alist_get token "token_type").getD (.str "Bearer")).render
      ++ " " ++ a.render)

/-- OAuth2Session.request up to the outgoing request (src lines
380..405): pop the caller's headers, obtain a token through
`get_token(auto_refresh)`, and overwrite its `Authorization` entry
with the bearer value. -/
def session_request (st : ClientState) (method url : String)
    (auto_refresh : Bool) (caller_headers : Dict) (token_resp : HttpResponse)
    (now : Int) : Except PyErr HttpRequest × ClientState :=
  match get_token st auto_refresh token_resp now with
  | (.error e, st2) => (.error e, st2)
  | (.ok tok, st2) =>
    match auth_header_value tok with
    | .error e => (.error e, st2)
    | .ok v =>
      let req : HttpRequest :=
        { method := method, url := url,
          headers := alist_insert caller_headers "Authorization" (.str v) }
      (.ok req, st2)

/-- OAuth2Session.request in full (src lines 380..408): the built
request goes to the transport and the transport's response is returned
as is — no status interpretation. -/
def session_request_response (st : ClientState) (method url : String)
    (auto_refresh : Bool) (caller_headers : Dict) (token_resp : HttpResponse)
    (now : Int) (transport : HttpRequest → HttpResponse) :
    Except PyErr HttpResponse × ClientState :=
  match session_request st method url auto_refresh caller_headers token_resp now with
  | (.error e, st2) => (.error e, st2)
  | (.ok req, st2) => (.ok (transport req), st2)

/-- OAuth2Session.get (src lines 410..412). -/
def session_get (st : ClientState) (url : String) (auto_refresh : Bool)
    (caller_headers : Dict) (token_resp : HttpResponse) (now : Int)
    (transport : HttpRequest → HttpResponse) :
    Except PyErr HttpResponse × ClientState :=
  session_request_response st "GET" url auto_refresh caller_headers
    token_resp now transport

/-- OAuth2Session.post (src lines 414..416). -/
def session_post (st : ClientState) (url : String) (auto_refresh : Bool)
    (caller_headers : Dict) (token_resp : HttpResponse) (now : Int)
    (transport : HttpRequest → HttpResponse) :
    Except PyErr HttpResponse × ClientState :=
  session_request_response st "POST" url auto_refresh caller_headers
    token_resp now transport

/-- OAuth2Session.put (src lines 418..420). -/
def session_put (st : ClientState) (url : String) (auto_refresh : Bool)
    (caller_headers : Dict) (token_resp : HttpResponse) (now : Int)
    (transport : HttpRequest → HttpResponse) :
    Except PyErr HttpResponse × ClientState :=
  session_request_response st "PUT" url auto_refresh caller_headers
    token_resp now transport

/-- OAuth2Session.delete (src lines 422..424). -/
def session_delete (st : ClientState) (url : String) (auto_refresh : Bool)
    (caller_headers : Dict) (token_resp : HttpResponse) (now : Int)
    (transport : HttpRequest → HttpResponse) :
    Except PyErr HttpResponse × ClientState :=
  session_request_response st "DELETE" url auto_refresh caller_headers
    token_resp now transport

/-- OAuth2Session.patch (src lines 426..428). -/
def session_patch (st : ClientState) (url : String) (auto_refresh : Bool)
    (caller_headers : Dict) (token_resp : HttpResponse) (now : Int)
    (transport : HttpRequest → HttpResponse) :
    Except PyErr HttpResponse × ClientState :=
  session_request_response st "PATCH" url auto_refresh caller_headers
    token_resp now transport

/-! ### Concurrent callers of get_token

`get_token` (src lines 234..255) takes no lock: the module imports no
threading primitive and guards the load / expiry-check / refresh /
persist sequence with nothing.  Under CPython's preemptive thread
scheduling the regions of two callers sharing one client therefore
interleave arbitrarily.  The step relation below gives each caller two
atomic regions: (1) the load and expiry check (src lines 244..249) and
(2) the whole refresh call together with its persist (src lines
251 and 218).  Collapsing the refresh and the persist into one atomic
step only removes interleavings, so any behaviour exhibited here is a
behaviour of the code. -/

/-- The program counter of one concurrent `get_token` caller. -/
inductive CallerPc where
  | start
  | willRefresh
  | done
  | failed
deriving DecidableEq, Repr

/-- The shared store slot, the callers, and how many refresh calls
have been issued so far. -/
structure ConcState where
  slot : Option TokenRecord
  pcs : List CallerPc
  refresh_calls : Nat
deriving Repr

/-- Caller `i` executes its next atomic region of `get_token`:
from `start` it loads the slot and runs the falsy and expiry checks;
from `willRefresh` it issues the refresh call (counted) and persists
the fresh record `fresh`. -/
def conc_step (fresh : TokenRecord) (now : Int) (s : ConcState) (i : Nat) :
    ConcState :=
  match s.pcs.getD i .done with
  | .start =>
    match s.slot with
    | none => { s with pcs := s.pcs.set i .failed }
    | some tok =>
      if tok == ([] : Dict) then { s with pcs := s.pcs.set i .failed }
      else if is_token_expired tok now then
        { s with pcs := s.pcs.set i .willRefresh }
      else { s with pcs := s.pcs.set i .done }
  | .willRefresh =>
    { slot := some fresh, pcs := s.pcs.set i .done,
      refresh_calls := s.refresh_calls + 1 }
  | .done => s
  | .failed => s

/-- Run a schedule: at each tick the named caller takes one step. -/
def conc_run (fresh : TokenRecord) (now : Int) (s : ConcState)
    (sched : List Nat) : ConcState :=
  sched.foldl (conc_step fresh now) s

/-- The initial state of `n` concurrent callers over a stored
record. -/
def conc_init (slot : Option TokenRecord) (n : Nat) : ConcState :=
  { slot := slot, pcs := List.replicate n .start, refresh_calls := 0 }

/-- Whether every key of `kvs` is absent from `l`; decidable so that
concrete instances evaluate. -/
def alist_disjoint {α : Type} (kvs l : List (String × α)) : Bool :=
  (alist_keys kvs).all (fun k => !(alist_has l k))

/-! ### The per-grant parameter sets of section 4.3

The exact body each grant type produces (the spec's enumerated
parameter set, with the secret-in-body rule of src lines 140..147),
against which `build_token_request` is compared. -/

/-- Parameters of the authorization-code grant when HTTP Basic
authentication carries the secret: grant type, client id, code,
redirect URI, and the pending PKCE verifier when one exists. -/
def authcode_base (cid code ru : String) (cv : Option String) : Dict :=
  [("grant_type", .str "authorization_code"), ("client_id", .str cid),
    ("code", .str code), ("redirect_uri", .str ru)] ++
  (if truthyS cv = true then [("code_verifier", .str (cv.getD ""))] else [])

/-- Parameters of the password grant with a configured secret. -/
def password_base (cid csec un pw : String) (scope : List String) : Dict :=
  [("grant_type", .str "password"), ("client_id", .str cid),
    ("client_secret", .str csec), ("username", .str un),
    ("password", .str pw)] ++
  (if scope ≠ [] then [("scope", .str (joinScope scope))] else [])

/-- Parameters of the client-credentials grant with a configured
secret. -/
def client_credentials_base (cid csec : String) (scope : List String) : Dict :=
  [("grant_type", .str "client_credentials"), ("client_id", .str cid),
    ("client_secret", .str csec)] ++
  (if scope ≠ [] then [("scope", .str (joinScope scope))] else [])

/-- Parameters of the refresh-token grant with a configured secret and
the refresh token taken from the stored record. -/
def refresh_base (cid csec : String) (rtv : JsonValue) : Dict :=
  [("grant_type", .str "refresh_token"), ("client_id", .str cid),
    ("client_secret", .str csec), ("refresh_token", rtv)]

/-! ### Association-list lemmas -/

theorem alist_get_nil {α : Type} (k : String) :
    alist_get ([] : List (String × α)) k = none := rfl

theorem alist_get_cons {α : Type} (k1 k : String) (v1 : α)
    (t : List (String × α)) :
    alist_get ((k1, v1) :: t) k =
      (if (k1 == k) = true then some v1 else alist_get t k) := by
  by_cases h : (k1 == k) = true
  · simp [alist_get, List.find?, h]
  · simp only [Bool.not_eq_true] at h
    simp [alist_get, List.find?, h]

theorem alist_has_nil {α : Type} (k : String) :
    alist_has ([] : List (String × α)) k = false := rfl

theorem alist_has_cons {α : Type} (k1 k : String) (v1 : α)
    (t : List (String × α)) :
    alist_has ((k1, v1) :: t) k = ((k1 == k) || alist_has t k) := by
  simp [alist_has]

theorem alist_has_append {α : Type} (l1 l2 : List (String × α)) (k : String) :
    alist_has (l1 ++ l2) k = (alist_has l1 k || alist_has l2 k) := by
  simp [alist_has]

theorem alist_get_append_of_not_has {α : Type} (l1 l2 : List (String × α))
    (k : String) (h : alist_has l1 k = false) :
    alist_get (l1 ++ l2) k = alist_get l2 k := by
  induction l1 with
  | nil => simp
  | cons p t ih =>
    obtain ⟨k1, v1⟩ := p
    rw [alist_has_cons] at h
    simp only [Bool.or_eq_false_iff] at h
    rw [List.cons_append, alist_get_cons, if_neg (by simp [h.1]), ih h.2]

theorem alist_get_eq_none_of_not_has {α : Type} (l : List (String × α))
    (k : String) (h : alist_has l k = false) :
    alist_get l k = none := by
  induction l with
  | nil => rfl
  | cons p t ih =>
    obtain ⟨k1, v1⟩ := p
    rw [alist_has_cons] at h
    simp only [Bool.or_eq_false_iff] at h
    rw [alist_get_cons, if_neg (by simp [h.1]), ih h.2]

theorem alist_has_of_get_eq_some {α : Type} (l : List (String × α))
    (k : String) (v : α) (h : alist_get l k = some v) :
    alist_has l k = true := by
  by_cases hh : alist_has l k = true
  · exact hh
  · rw [alist_get_eq_none_of_not_has l k (by simpa using hh)] at h
    cases h

theorem alist_insert_of_not_has {α : Type} (l : List (String × α))
    (k : String) (v : α) (h : alist_has l k = false) :
    alist_insert l k v = l ++ [(k, v)] := by
  simp [alist_insert, h]

theorem alist_get_insert_self {α : Type} (l : List (String × α))
    (k : String) (v : α) :
    alist_get (alist_insert l k v) k = some v := by
  unfold alist_insert
  by_cases h : alist_has l k = true
  · rw [if_pos h]
    induction l with
    | nil => cases h
    | cons p t ih =>
      obtain ⟨k1, v1⟩ := p
      rw [alist_has_cons] at h
      by_cases h1 : (k1 == k) = true
      · simp only [List.map_cons, h1, if_pos]
        rw [alist_get_cons, if_pos (by simp)]
      · simp only [List.map_cons]
        rw [if_neg (by simpa using h1), alist_get_cons, if_neg (by simpa using h1)]
        exact ih (by simpa [h1] using h)
  · rw [if_neg h]
    rw [alist_get_append_of_not_has _ _ _ (by simpa using h)]
    rw [alist_get_cons, if_pos (by simp)]

theorem alist_get_map_overwrite_ne {α : Type} (l : List (String × α))
    (k k' : String) (v : α) (h : k' ≠ k) :
    alist_get (l.map (fun p => if p.1 == k then (k, v) else p)) k' =
      alist_get l k' := by
  induction l with
  | nil => rfl
  | cons p t ih =>
    obtain ⟨k1, v1⟩ := p
    by_cases h1 : (k1 == k) = true
    · have hpk : k1 = k := by simpa using h1
      simp only [List.map_cons, h1, if_pos]
      rw [alist_get_cons, alist_get_cons,
        if_neg (by simp [Ne.symm h]), if_neg (by simp [hpk, Ne.symm h])]
      exact ih
    · simp only [List.map_cons]
      rw [if_neg (by simpa using h1), alist_get_cons, alist_get_cons]
      by_cases h2 : (k1 == k') = true
      · rw [if_pos h2, if_pos h2]
      · rw [if_neg h2, if_neg h2]
        exact ih

theorem alist_get_insert_ne {α : Type} (l : List (String × α))
    (k k' : String) (v : α) (h : k' ≠ k) :
    alist_get (alist_insert l k v) k' = alist_get l k' := by
  unfold alist_insert
  by_cases hh : alist_has l k = true
  · rw [if_pos hh]
    exact alist_get_map_overwrite_ne l k k' v h
  · rw [if_neg hh]
    induction l with
    | nil =>
      simp only [List.nil_append]
      rw [alist_get_cons, if_neg (by simp [Ne.symm h]), alist_get_nil]
    | cons p t ih =>
      obtain ⟨k1, v1⟩ := p
      rw [List.cons_append, alist_get_cons, alist_get_cons]
      rw [alist_has_cons] at hh
      simp only [Bool.or_eq_true, not_or] at hh
      by_cases h2 : (k1 == k') = true
      · rw [if_pos h2, if_pos h2]
      · rw [if_neg h2, if_neg h2]
        exact ih (by simpa using fun hc => hh.2 hc)

theorem alist_has_eq_isSome_get {α : Type} (l : List (String × α)) (k : String) :
    alist_has l k = (alist_get l k).isSome := by
  induction l with
  | nil => rfl
  | cons p t ih =>
    obtain ⟨k1, v1⟩ := p
    rw [alist_has_cons, alist_get_cons]
    by_cases h1 : (k1 == k) = true
    · rw [if_pos h1]
      simp [h1]
    · rw [if_neg h1]
      simp [h1, ih]

theorem alist_update_nil {α : Type} (l : List (String × α)) :
    alist_update l [] = l := rfl

theorem alist_update_cons {α : Type} (l : List (String × α)) (k : String)
    (v : α) (rest : List (String × α)) :
    alist_update l ((k, v) :: rest) = alist_update (alist_insert l k v) rest := rfl

theorem alist_get_update_of_not_has {α : Type} (l kvs : List (String × α))
    (k : String) (h : alist_has kvs k = false) :
    alist_get (alist_update l kvs) k = alist_get l k := by
  induction kvs generalizing l with
  | nil => rfl
  | cons p rest ih =>
    obtain ⟨k1, v1⟩ := p
    rw [alist_has_cons] at h
    simp only [Bool.or_eq_false_iff] at h
    rw [alist_update_cons, ih _ h.2,
      alist_get_insert_ne _ _ _ _ (Ne.symm (by simpa using h.1))]

theorem alist_update_disjoint {α : Type} (l kvs : List (String × α))
    (hd : alist_disjoint kvs l = true) (hn : (alist_keys kvs).Nodup) :
    alist_update l kvs = l ++ kvs := by
  induction kvs generalizing l with
  | nil => rw [alist_update_nil, List.append_nil]
  | cons p rest ih =>
    obtain ⟨k1, v1⟩ := p
    simp only [alist_disjoint, alist_keys, List.map_cons, List.all_cons,
      Bool.and_eq_true, Bool.not_eq_true'] at hd
    simp only [alist_keys, List.map_cons, List.nodup_cons] at hn
    rw [alist_update_cons, alist_insert_of_not_has _ _ _ hd.1,
      ih (l ++ [(k1, v1)]) ?_ hn.2]
    · simp
    · simp only [alist_disjoint, List.all_eq_true] at hd ⊢
      intro k hk
      have h1 := hd.2 k hk
      rw [alist_has_append]
      simp only [Bool.not_eq_true', Bool.or_eq_false_iff]
      refine ⟨by simpa using h1, ?_⟩
      rw [alist_has_cons, alist_has_nil, Bool.or_false]
      simp only [beq_eq_false_iff_ne, ne_eq]
      intro hc
      exact hn.1 (hc ▸ hk)

theorem alist_has_erase_self {α : Type} (l : List (String × α)) (k : String) :
    alist_has (alist_erase l k) k = false := by
  induction l with
  | nil => rfl
  | cons p t ih =>
    obtain ⟨k1, v1⟩ := p
    by_cases h1 : (k1 == k) = true
    · simpa [alist_erase, List.filter_cons, h1] using ih
    · simp only [alist_erase, List.filter_cons] at ih ⊢
      rw [show (!(k1 == k)) = true by simp [h1]]
      simp only [if_pos]
      rw [alist_has_cons, ih]
      simp [h1]

/-! ### Claims -/

/-- C7: for both store implementations, save followed by load returns
the saved record, load before any save and load after delete return
none, and for the file-backed store a load on a missing file is none
(not an error) while delete on a missing file changes nothing. -/
theorem C7_store_roundtrip :
    (∀ s t, InMemoryTokenStorage.get_token (InMemoryTokenStorage.save_token s t) = some t)
    ∧ InMemoryTokenStorage.get_token InMemoryTokenStorage.initial = none
    ∧ (∀ s, InMemoryTokenStorage.get_token (InMemoryTokenStorage.delete_token s) = none)
    ∧ (∀ fs p t, FileTokenStorage.get_token (FileTokenStorage.save_token fs p t) p = some t)
    ∧ (∀ fs p, alist_has fs p = false → FileTokenStorage.get_token fs p = none)
    ∧ (∀ fs p, FileTokenStorage.get_token (FileTokenStorage.delete_token fs p) p = none)
    ∧ (∀ fs p, alist_has fs p = false → FileTokenStorage.delete_token fs p = fs) := by
  refine ⟨fun s t => rfl, rfl, fun s => rfl, ?_, ?_, ?_, ?_⟩
  · intro fs p t
    exact alist_get_insert_self fs p t
  · intro fs p h
    exact alist_get_eq_none_of_not_has fs p h
  · intro fs p
    unfold FileTokenStorage.delete_token FileTokenStorage.get_token
    by_cases h : alist_has fs p = true
    · rw [if_pos h]
      exact alist_get_eq_none_of_not_has _ _ (alist_has_erase_self fs p)
    · rw [if_neg h]
      exact alist_get_eq_none_of_not_has fs p (by simpa using h)
  · intro fs p h
    unfold FileTokenStorage.delete_token
    rw [if_neg (by simp [h])]

/-- C7 witness: the store laws applied at one concrete record, path
and directory. -/
theorem C7_store_roundtrip_witness :
    FileTokenStorage.get_token
      (FileTokenStorage.save_token [] "/tmp/tok.json"
        [("access_token", JsonValue.str "a1")]) "/tmp/tok.json" =
      some [("access_token", JsonValue.str "a1")]
    ∧ FileTokenStorage.get_token ([] : FileSys) "/tmp/tok.json" = none
    ∧ FileTokenStorage.delete_token ([] : FileSys) "/tmp/tok.json" = [] :=
  ⟨C7_store_roundtrip.2.2.2.1 [] "/tmp/tok.json" [("access_token", JsonValue.str "a1")],
   C7_store_roundtrip.2.2.2.2.1 [] "/tmp/tok.json" (by decide),
   C7_store_roundtrip.2.2.2.2.2.2 [] "/tmp/tok.json" (by decide)⟩

set_option maxRecDepth 10000 in
/-- C9: the code challenge is exactly the URL-safe base64 encoding,
padding stripped, of the SHA-256 digest of the verifier's UTF-8 bytes
(the composition the spec states, `spec_code_challenge`); it is a
deterministic function of the verifier; and it maps the RFC 7636
appendix B verifier to the published challenge, grounding the embedded
SHA-256 pipeline. -/
theorem C9_code_challenge :
    (∀ v, generate_code_challenge v = spec_code_challenge v)
    ∧ (∀ v w, v = w → generate_code_challenge v = generate_code_challenge w)
    ∧ generate_code_challenge "dBjftJeZ4CVP-mB92K27uhbUJU1p1r_wW1gFWFOEjXk" =
        "E9Melhoa2OwvFrEMTJguCHaoeK1t8URWbuGJSstw-cM" :=
  ⟨fun _ => rfl, fun _ _ h => h ▸ rfl, by rfl⟩

/-- C9 witness: determinism applied at a concrete verifier. -/
theorem C9_code_challenge_witness :
    generate_code_challenge "abc" = generate_code_challenge "abc" :=
  C9_code_challenge.2.1 "abc" "abc" rfl

/-- C10: whenever `fetch_token` raises — missing token URL, missing
grant argument, missing refresh token, non-success response, or an
unparseable success body — the token store is left exactly as it was;
the new record is persisted only on a fully successful exchange. -/
theorem C10_no_persist_on_failure (st : ClientState) (args : FetchArgs)
    (resp : HttpResponse) (now : Int) (e : PyErr)
    (h : (fetch_token st args resp now).result = .error e) :
    (fetch_token st args resp now).state.store = st.store := by
  unfold fetch_token at h ⊢
  cases hb : build_token_request st.config st.code_verifier st.store args with
  | error e2 => simp [hb]
  | ok v =>
    obtain ⟨data, rest⟩ := v
    obtain ⟨auth, cv2⟩ := rest
    cases hp : process_token_response resp now with
    | error e2 => simp [hb, hp]
    | ok td =>
      rw [hb, hp] at h
      simp at h

/-- C10 witness: a call with no token URL configured fails and leaves
the (empty) store empty. -/
theorem C10_no_persist_on_failure_witness :
    (fetch_token ⟨⟨"cid", none, none, none, none, []⟩, none, none⟩
      ⟨none, none, none, "client_credentials", []⟩ ⟨200, none, ""⟩ 0).state.store
      = none :=
  C10_no_persist_on_failure ⟨⟨"cid", none, none, none, none, []⟩, none, none⟩
    ⟨none, none, none, "client_credentials", []⟩ ⟨200, none, ""⟩ 0
    (.oauth2Error "Token URL not provided") rfl

/-- C4: a 200 response whose body has `expires_in` (an integer `n`) but
no `expires_at` yields, at time `now`, a stored record with
`expires_at = now + n` (both returned and persisted); and the expiry
check is `false` on a record without `expires_at` and is otherwise
`true` exactly when `expires_at <= now + 10`. -/
theorem C4_expiry_derivation_and_check (st : ClientState) (args : FetchArgs)
    (resp : HttpResponse) (now : Int) (td : TokenRecord) (n : Int)
    (d : Dict) (a : Option (String × String)) (c : Option String)
    (hb : build_token_request st.config st.code_verifier st.store args = .ok (d, a, c))
    (hs : resp.status_code = 200) (hj : resp.json = some td)
    (hin : alist_get td "expires_in" = some (.num n))
    (hout : alist_has td "expires_at" = false) :
    ((fetch_token st args resp now).result =
        .ok (alist_insert td "expires_at" (.num (now + n)))
      ∧ (fetch_token st args resp now).state.store =
        some (alist_insert td "expires_at" (.num (now + n)))
      ∧ alist_get (alist_insert td "expires_at" (.num (now + n))) "expires_at" =
        some (.num (now + n)))
    ∧ (∀ tok (m : Int), alist_get tok "expires_at" = none →
        is_token_expired tok m = false)
    ∧ (∀ tok (m e : Int), alist_get tok "expires_at" = some (.num e) →
        (is_token_expired tok m = true ↔ e ≤ m + 10)) := by
  have hp : process_token_response resp now =
      .ok (alist_insert td "expires_at" (.num (now + n))) := by
    unfold process_token_response
    rw [hs, hj]
    rw [if_neg (by simp)]
    dsimp only
    rw [alist_has_of_get_eq_some td "expires_in" _ hin, hout, hin]
    rfl
  refine ⟨?_, ?_, ?_⟩
  · unfold fetch_token
    rw [hb, hp]
    exact ⟨rfl, rfl, alist_get_insert_self td "expires_at" (.num (now + n))⟩
  · intro tok m h
    unfold is_token_expired
    rw [h]
  · intro tok m e h
    unfold is_token_expired
    rw [h]
    simp

/-- C4 witness: a concrete exchange received at time 1000 with
`expires_in = 3600` stores `expires_at = 4600`, and the expiry check at
the boundary values. -/
theorem C4_expiry_derivation_and_check_witness :
    (fetch_token ⟨⟨"cid", none, some "https://t", none, none, []⟩, none, none⟩
        ⟨none, none, none, "client_credentials", []⟩
        ⟨200, some [("access_token", JsonValue.str "x"),
          ("expires_in", JsonValue.num 3600)], ""⟩ 1000).state.store =
      some [("access_token", JsonValue.str "x"),
        ("expires_in", JsonValue.num 3600), ("expires_at", JsonValue.num 4600)]
    ∧ is_token_expired [("access_token", JsonValue.str "x")] 0 = false
    ∧ (is_token_expired [("expires_at", JsonValue.num 4600)] 4590 = true ↔
        (4600 : Int) ≤ 4590 + 10) := by
  have h := C4_expiry_derivation_and_check
    ⟨⟨"cid", none, some "https://t", none, none, []⟩, none, none⟩
    ⟨none, none, none, "client_credentials", []⟩
    ⟨200, some [("access_token", JsonValue.str "x"),
      ("expires_in", JsonValue.num 3600)], ""⟩ 1000
    [("access_token", JsonValue.str "x"), ("expires_in", JsonValue.num 3600)]
    3600
    [("grant_type", JsonValue.str "client_credentials"),
      ("client_id", JsonValue.str "cid")] none none
    rfl rfl rfl rfl rfl
  exact ⟨h.1.2.1, h.2.1 [("access_token", JsonValue.str "x")] 0 rfl,
    h.2.2 [("expires_at", JsonValue.num 4600)] 4590 4600 rfl⟩

/-- C5: a non-200 token-endpoint response makes `fetch_token` raise
`TokenError` whose message is the provider `error_description` (or
`error`, or the raw body text) together with the HTTP status; in
particular HTTP 400 with `{"error":"invalid_grant",
"error_description":"bad code"}` gives the message
`Error fetching token: bad code (HTTP 400)`. -/
theorem C5_exchange_error (st : ClientState) (args : FetchArgs)
    (resp : HttpResponse) (now : Int)
    (d : Dict) (a : Option (String × String)) (c : Option String)
    (hb : build_token_request st.config st.code_verifier st.store args = .ok (d, a, c))
    (hs : resp.status_code ≠ 200) :
    (fetch_token st args resp now).result = .error (.tokenError
        ("Error fetching token: " ++ error_desc_of resp ++
          " (HTTP " ++ toString resp.status_code ++ ")"))
    ∧ (∀ dd s, resp.json = some dd →
        alist_get dd "error_description" = some (.str s) →
        error_desc_of resp = s)
    ∧ (resp.json = none → resp.text ≠ "" → error_desc_of resp = resp.text)
    ∧ process_token_response
        ⟨400, some [("error", JsonValue.str "invalid_grant"),
          ("error_description", JsonValue.str "bad code")], ""⟩ 0 =
        .error (.tokenError "Error fetching token: bad code (HTTP 400)") := by
  refine ⟨?_, ?_, ?_, rfl⟩
  · unfold fetch_token
    rw [hb]
    unfold process_token_response
    rw [if_pos (by simpa using hs)]
  · intro dd s hj hd
    unfold error_desc_of
    rw [hj]
    dsimp only
    rw [hd]
    rfl
  · intro hj ht
    unfold error_desc_of
    rw [hj]
    rw [if_neg (by simpa using ht)]

/-- C5 witness: the message law applied at the concrete 400 response of
the claim. -/
theorem C5_exchange_error_witness :
    (fetch_token ⟨⟨"cid", none, some "https://t", none, none, []⟩, none, none⟩
        ⟨none, none, none, "client_credentials", []⟩
        ⟨400, some [("error", JsonValue.str "invalid_grant"),
          ("error_description", JsonValue.str "bad code")], ""⟩ 0).result =
      .error (.tokenError "Error fetching token: bad code (HTTP 400)") := by
  have h := C5_exchange_error
    ⟨⟨"cid", none, some "https://t", none, none, []⟩, none, none⟩
    ⟨none, none, none, "client_credentials", []⟩
    ⟨400, some [("error", JsonValue.str "invalid_grant"),
      ("error_description", JsonValue.str "bad code")], ""⟩ 0
    [("grant_type", JsonValue.str "client_credentials"),
      ("client_id", JsonValue.str "cid")] none none
    rfl (by decide)
  have h2 := h.2.1 [("error", JsonValue.str "invalid_grant"),
    ("error_description", JsonValue.str "bad code")] "bad code" rfl rfl
  rw [h.1, h2]
  rfl

/-- C1 counterexample: the module defines no separate `NoTokenError`
and `TokenRefreshError` classes — `get_token` raises the single class
`TokenError` (src lines 247 and 253) both when the store is empty and
when an automatic refresh fails, so the two failures have the same
error kind and are not distinguishable by kind alone, contrary to the
claim. -/
theorem C1_counterexample :
    (get_token ⟨⟨"cid", none, some "https://t", none, none, []⟩, none, none⟩
        true ⟨400, some [("error", JsonValue.str "invalid_grant")], ""⟩ 100).1 =
      .error (.tokenError "No token available")
    ∧ (get_token ⟨⟨"cid", none, some "https://t", none, none, []⟩, none,
        some [("access_token", JsonValue.str "old"),
          ("refresh_token", JsonValue.str "r1"),
          ("expires_at", JsonValue.num 0)]⟩
        true ⟨400, some [("error", JsonValue.str "invalid_grant")], ""⟩ 100).1 =
      .error (.tokenError
        "Failed to refresh token: Error fetching token: invalid_grant (HTTP 400)")
    ∧ PyErr.kind (.tokenError "No token available") =
      PyErr.kind (.tokenError
        "Failed to refresh token: Error fetching token: invalid_grant (HTTP 400)") :=
  ⟨rfl, rfl, rfl⟩

/-- C1 amended: `get_token` raises `TokenError("No token available")`
when the store is empty, and when the stored record is expired and the
automatic refresh raises any `OAuth2Error`, it is wrapped and re-raised
as `TokenError("Failed to refresh token: ...")` — not swallowed — but
both failures carry the same exception class `TokenError`, so a caller
distinguishes them by message, not by kind. -/
theorem C1_error_kinds :
    (∀ st resp (now : Int), st.store = none →
      (get_token st true resp now).1 = .error (.tokenError "No token available"))
    ∧ (∀ st tok resp (now : Int) e, st.store = some tok → tok ≠ ([] : Dict) →
        is_token_expired tok now = true →
        (refresh_token st none resp now).result = .error e →
        e.isOAuth2Error = true →
        (get_token st true resp now).1 =
          .error (.tokenError ("Failed to refresh token: " ++ e.msg)))
    ∧ (∀ m1 m2 : String, (PyErr.tokenError m1).kind = (PyErr.tokenError m2).kind) := by
  refine ⟨?_, ?_, fun m1 m2 => rfl⟩
  · intro st resp now h
    unfold get_token
    rw [h]
  · intro st tok resp now e hstore htok hexp href hcls
    unfold get_token
    rw [hstore]
    dsimp only
    rw [if_neg (by simpa using htok)]
    rw [if_pos (by simp [hexp])]
    rw [href]
    dsimp only
    rw [if_pos hcls]

/-- C1 witness: the amended statement applied at the two concrete runs
of the counterexample. -/
theorem C1_error_kinds_witness :
    (get_token ⟨⟨"cid", none, some "https://t", none, none, []⟩, none, none⟩
        true ⟨400, some [("error", JsonValue.str "invalid_grant")], ""⟩ 100).1 =
      .error (.tokenError "No token available")
    ∧ (get_token ⟨⟨"cid", none, some "https://t", none, none, []⟩, none,
        some [("access_token", JsonValue.str "old"),
          ("refresh_token", JsonValue.str "r1"),
          ("expires_at", JsonValue.num 0)]⟩
        true ⟨400, some [("error", JsonValue.str "invalid_grant")], ""⟩ 100).1 =
      .error (.tokenError ("Failed to refresh token: " ++
        PyErr.msg (.tokenError "Error fetching token: invalid_grant (HTTP 400)"))) :=
  ⟨C1_error_kinds.1 ⟨⟨"cid", none, some "https://t", none, none, []⟩, none, none⟩
      ⟨400, some [("error", JsonValue.str "invalid_grant")], ""⟩ 100 rfl,
   C1_error_kinds.2.1 ⟨⟨"cid", none, some "https://t", none, none, []⟩, none,
      some [("access_token", JsonValue.str "old"),
        ("refresh_token", JsonValue.str "r1"), ("expires_at", JsonValue.num 0)]⟩
      [("access_token", JsonValue.str "old"),
        ("refresh_token", JsonValue.str "r1"), ("expires_at", JsonValue.num 0)]
      ⟨400, some [("error", JsonValue.str "invalid_grant")], ""⟩ 100
      (.tokenError "Error fetching token: invalid_grant (HTTP 400)")
      rfl (by decide) rfl rfl rfl⟩

/-- C6 counterexample: `get_token` holds no lock (src lines 234..255
use no synchronization primitive), so two concurrent callers that both
pass the expiry check before either refreshes each issue their own
refresh call — the schedule `[0, 1, 0, 1]` over one shared expired
record produces 2 refresh calls, not the exactly 1 the claim
requires. -/
theorem C6_counterexample :
    (conc_run [("access_token", JsonValue.str "new")] 100
      (conc_init (some [("access_token", JsonValue.str "old"),
        ("expires_at", JsonValue.num 0)]) 2)
      [0, 1, 0, 1]).refresh_calls = 2
    ∧ (2 : Nat) ≠ 1 :=
  ⟨rfl, by decide⟩

/-- C6 amended: the check-expiry/refresh/persist sequence of
`get_token` is not serialized by any critical section; for every
expired stored record there is an interleaving of two concurrent
callers — each caller's load-and-check and refresh-and-persist regions
stepped alternately — in which both issue a refresh call, so N
concurrent callers may issue up to N refreshes rather than exactly
one. -/
theorem C6_no_single_flight (tok fresh : TokenRecord) (now : Int)
    (h1 : tok ≠ ([] : Dict)) (h2 : is_token_expired tok now = true) :
    (conc_run fresh now (conc_init (some tok) 2) [0, 1, 0, 1]).refresh_calls = 2 := by
  unfold conc_run conc_init
  simp only [List.foldl]
  rw [show conc_step fresh now
      ⟨some tok, List.replicate 2 .start, 0⟩ 0 =
      ⟨some tok, [.willRefresh, .start], 0⟩ by
    unfold conc_step
    simp [h2, (by simpa using h1 : (tok == ([] : Dict)) = false)]]
  rw [show conc_step fresh now ⟨some tok, [.willRefresh, .start], 0⟩ 1 =
      ⟨some tok, [.willRefresh, .willRefresh], 0⟩ by
    unfold conc_step
    simp [h2, (by simpa using h1 : (tok == ([] : Dict)) = false)]]
  rw [show conc_step fresh now ⟨some tok, [.willRefresh, .willRefresh], 0⟩ 0 =
      ⟨some fresh, [.done, .willRefresh], 1⟩ by
    unfold conc_step
    simp]
  rw [show conc_step fresh now ⟨some fresh, [.done, .willRefresh], 1⟩ 1 =
      ⟨some fresh, [.done, .done], 2⟩ by
    unfold conc_step
    simp]

/-- C6 witness: the race at a concrete expired record. -/
theorem C6_no_single_flight_witness :
    (conc_run [("access_token", JsonValue.str "new")] 100
      (conc_init (some [("access_token", JsonValue.str "old"),
        ("expires_at", JsonValue.num 0)]) 2)
      [0, 1, 0, 1]).refresh_calls = 2 :=
  C6_no_single_flight
    [("access_token", JsonValue.str "old"), ("expires_at", JsonValue.num 0)]
    [("access_token", JsonValue.str "new")] 100 (by decide) rfl

/-- C8: every `OAuth2Session.request` (and every GET/POST/PUT/DELETE/
PATCH wrapper, each of which funnels into `request`) sends the request
with header `Authorization` set to `<token_type> <access_token>` of
the record `get_token(auto_refresh)` returned, with `token_type`
defaulting to `Bearer` when absent; caller headers under other keys
are preserved, a caller-supplied `Authorization` value is overwritten,
and the transport's response is returned untouched whatever its
status. -/
theorem C8_session_auth_header (st : ClientState) (method url : String)
    (ar : Bool) (chs : Dict) (resp : HttpResponse) (now : Int)
    (transport : HttpRequest → HttpResponse)
    (tok : TokenRecord) (st2 : ClientState) (hv : String)
    (hg : get_token st ar resp now = (.ok tok, st2))
    (hhv : auth_header_value tok = .ok hv) :
    (session_request st method url ar chs resp now =
        (.ok ⟨method, url, alist_insert chs "Authorization" (.str hv)⟩, st2))
    ∧ alist_get (alist_insert chs "Authorization" (.str hv)) "Authorization" =
        some (.str hv)
    ∧ (∀ k, k ≠ "Authorization" →
        alist_get (alist_insert chs "Authorization" (.str hv)) k =
          alist_get chs k)
    ∧ (∀ a, alist_get tok "token_type" = none →
        alist_get tok "access_token" = some a →
        auth_header_value tok = .ok ("Bearer " ++ a.render))
    ∧ (∀ t a, alist_get tok "token_type" = some t →
        alist_get tok "access_token" = some a →
        auth_header_value tok = .ok (t.render ++ " " ++ a.render))
    ∧ session_request_response st method url ar chs resp now transport =
        (.ok (transport ⟨method, url,
          alist_insert chs "Authorization" (.str hv)⟩), st2)
    ∧ (session_get st url ar chs resp now transport =
        session_request_response st "GET" url ar chs resp now transport
      ∧ session_post st url ar chs resp now transport =
        session_request_response st "POST" url ar chs resp now transport
      ∧ session_put st url ar chs resp now transport =
        session_request_response st "PUT" url ar chs resp now transport
      ∧ session_delete st url ar chs resp now transport =
        session_request_response st "DELETE" url ar chs resp now transport
      ∧ session_patch st url ar chs resp now transport =
        session_request_response st "PATCH" url ar chs resp now transport) := by
  have hreq : session_request st method url ar chs resp now =
      (.ok ⟨method, url, alist_insert chs "Authorization" (.str hv)⟩, st2) := by
    unfold session_request
    rw [hg]
    dsimp only
    rw [hhv]
  refine ⟨hreq, alist_get_insert_self chs "Authorization" (.str hv),
    fun k hk => alist_get_insert_ne chs "Authorization" k (.str hv) hk,
    ?_, ?_, ?_, rfl, rfl, rfl, rfl, rfl⟩
  · intro a hno hacc
    unfold auth_header_value
    rw [hacc]
    dsimp only
    rw [hno]
    rfl
  · intro t a htt hacc
    unfold auth_header_value
    rw [hacc]
    dsimp only
    rw [htt]
    rfl
  · unfold session_request_response
    rw [hreq]

/-- C8 witness: a concrete GET with a valid stored bearer token, a
caller trace header that is preserved, and a transport answering
HTTP 500 whose response comes back untouched. -/
theorem C8_session_auth_header_witness :
    session_request
        ⟨⟨"cid", none, some "https://t", none, none, []⟩, none,
          some [("access_token", JsonValue.str "abc"),
            ("token_type", JsonValue.str "Bearer")]⟩
        "GET" "/resource" true
        [("X-Trace", JsonValue.str "1"),
          ("Authorization", JsonValue.str "stale")]
        ⟨200, none, ""⟩ 0 =
      (.ok ⟨"GET", "/resource",
        [("X-Trace", JsonValue.str "1"),
          ("Authorization", JsonValue.str "Bearer abc")]⟩,
       ⟨⟨"cid", none, some "https://t", none, none, []⟩, none,
          some [("access_token", JsonValue.str "abc"),
            ("token_type", JsonValue.str "Bearer")]⟩)
    ∧ alist_get
        [("X-Trace", JsonValue.str "1"),
          ("Authorization", JsonValue.str "Bearer abc")] "X-Trace" =
        alist_get [("X-Trace", JsonValue.str "1"),
          ("Authorization", JsonValue.str "stale")] "X-Trace" := by
  have h := C8_session_auth_header
    ⟨⟨"cid", none, some "https://t", none, none, []⟩, none,
      some [("access_token", JsonValue.str "abc"),
        ("token_type", JsonValue.str "Bearer")]⟩
    "GET" "/resource" true
    [("X-Trace", JsonValue.str "1"), ("Authorization", JsonValue.str "stale")]
    ⟨200, none, ""⟩ 0 (fun _ => ⟨500, none, "boom"⟩)
    [("access_token", JsonValue.str "abc"),
      ("token_type", JsonValue.str "Bearer")]
    ⟨⟨"cid", none, some "https://t", none, none, []⟩, none,
      some [("access_token", JsonValue.str "abc"),
        ("token_type", JsonValue.str "Bearer")]⟩
    "Bearer abc" rfl rfl
  refine ⟨?_, ?_⟩
  · rw [h.1]
    rfl
  · have h3 := h.2.2.1 "X-Trace" (by decide)
    rw [show alist_insert
        [("X-Trace", JsonValue.str "1"),
          ("Authorization", JsonValue.str "stale")]
        "Authorization" (JsonValue.str "Bearer abc") =
        [("X-Trace", JsonValue.str "1"),
          ("Authorization", JsonValue.str "Bearer abc")] from rfl] at h3
    exact h3

theorem alist_get_secret_step_ne (cfg : ClientConfig) (g : String)
    (kw data : Dict) (k : String) (hk : k ≠ "client_secret") :
    alist_get (secret_step cfg g kw data).1 k = alist_get data k := by
  unfold secret_step
  by_cases h1 : truthyS cfg.client_secret = true
  · rw [if_pos h1]
    by_cases h2 : (g != "authorization_code" ||
        !((alist_get kw "use_basic_auth").getD .null).truthy) = true
    · rw [if_pos h2]
      exact alist_get_insert_ne data "client_secret" k _ hk
    · rw [if_neg h2]
  · rw [if_neg h1]

/-- The shape of the request `build_token_request` constructs for the
authorization-code grant: code, redirect URI, the PKCE verifier when
one is pending (which is then cleared), then the kwargs merged last. -/
theorem build_authcode (cfg : ClientConfig) (cv : Option String)
    (slot : Option TokenRecord) (code : String) (kw : Dict) (tu : String)
    (htu : cfg.token_url = some tu) (htu2 : tu ≠ "") (hcode : code ≠ "") :
    build_token_request cfg cv slot
        ⟨some code, none, none, "authorization_code", kw⟩ =
      .ok (alist_update
        (if truthyS cv = true then
          alist_insert (alist_insert (alist_insert
            (secret_step cfg "authorization_code" kw
              [("grant_type", .str "authorization_code"),
                ("client_id", .str cfg.client_id)]).1
            "code" (.str code)) "redirect_uri"
            (match cfg.redirect_uri with | some r => .str r | none => .null))
            "code_verifier" (.str (cv.getD ""))
        else
          alist_insert (alist_insert
            (secret_step cfg "authorization_code" kw
              [("grant_type", .str "authorization_code"),
                ("client_id", .str cfg.client_id)]).1
            "code" (.str code)) "redirect_uri"
            (match cfg.redirect_uri with | some r => .str r | none => .null)) kw,
        (secret_step cfg "authorization_code" kw
          [("grant_type", .str "authorization_code"),
            ("client_id", .str cfg.client_id)]).2,
        if truthyS cv = true then none else cv) := by
  unfold build_token_request
  rw [htu]
  rw [if_neg (by simp [truthyS, htu2])]
  dsimp only
  rw [if_pos (by simp)]
  rw [if_neg (by simp [truthyS, hcode])]
  by_cases hcv : truthyS cv = true
  · rw [if_pos hcv, if_pos hcv, if_pos hcv]
    rfl
  · rw [if_neg hcv, if_neg hcv, if_neg hcv]
    rfl

/-- An authorization-code `fetch_token` on a client whose verifier
slot is empty sends a request, and that request carries no
`code_verifier` parameter. -/
theorem fetch_authcode_sends_no_verifier (cfg : ClientConfig)
    (S : Option TokenRecord) (code : String) (kw : Dict) (tu : String)
    (resp : HttpResponse) (now : Int)
    (htu : cfg.token_url = some tu) (htu2 : tu ≠ "") (hcode : code ≠ "")
    (hk : alist_has kw "code_verifier" = false) :
    (fetch_token ⟨cfg, none, S⟩
      ⟨some code, none, none, "authorization_code", kw⟩
      resp now).sent.map (fun p => alist_get p.1 "code_verifier") = some none := by
  have hb := build_authcode cfg none S code kw tu htu htu2 hcode
  rw [if_neg (by simp [truthyS]), if_neg (by simp [truthyS])] at hb
  unfold fetch_token
  rw [hb]
  cases hp : process_token_response resp now with
  | error e =>
    dsimp only [Option.map]
    rw [alist_get_update_of_not_has _ _ _ hk,
      alist_get_insert_ne _ _ _ _ (by decide),
      alist_get_insert_ne _ _ _ _ (by decide),
      alist_get_secret_step_ne _ _ _ _ _ (by decide)]
    rfl
  | ok td =>
    dsimp only [Option.map]
    rw [alist_get_update_of_not_has _ _ _ hk,
      alist_get_insert_ne _ _ _ _ (by decide),
      alist_get_insert_ne _ _ _ _ (by decide),
      alist_get_secret_step_ne _ _ _ _ _ (by decide)]
    rfl

/-- C3: after `create_authorization_url` with PKCE, the next
authorization-code `fetch_token` sends the stored `code_verifier` in
its token request and clears the slot, so a second authorization-code
call without building a new authorization URL sends no
`code_verifier`. -/
theorem C3_pkce_verifier_consumed
    (cid tu au ru code fresh_state : String) (sec : Option String)
    (scope : List String) (cv0 : Option String) (slot : Option TokenRecord)
    (stArg : Option String) (kwargs1 kwargs2 kwargs3 : Dict)
    (vbytes : List Nat) (resp resp2 : HttpResponse) (now now2 : Int)
    (us : String × String) (st1 : ClientState)
    (htu : tu ≠ "") (hau : au ≠ "") (hru : ru ≠ "") (hcode : code ≠ "")
    (hv : generate_code_verifier vbytes ≠ "")
    (hk2 : alist_has kwargs2 "code_verifier" = false)
    (hk3 : alist_has kwargs3 "code_verifier" = false)
    (hcreate : create_authorization_url
        ⟨⟨cid, sec, some tu, some au, some ru, scope⟩, cv0, slot⟩
        stArg true kwargs1 fresh_state vbytes = .ok (us, st1)) :
    st1.code_verifier = some (generate_code_verifier vbytes)
    ∧ (fetch_token st1 ⟨some code, none, none, "authorization_code", kwargs2⟩
        resp now).sent.map (fun p => alist_get p.1 "code_verifier") =
      some (some (.str (generate_code_verifier vbytes)))
    ∧ (fetch_token st1 ⟨some code, none, none, "authorization_code", kwargs2⟩
        resp now).state.code_verifier = none
    ∧ (fetch_token
        (fetch_token st1 ⟨some code, none, none, "authorization_code", kwargs2⟩
          resp now).state
        ⟨some code, none, none, "authorization_code", kwargs3⟩
        resp2 now2).sent.map (fun p => alist_get p.1 "code_verifier") =
      some none := by
  have hst1 : st1 = ⟨⟨cid, sec, some tu, some au, some ru, scope⟩,
      some (generate_code_verifier vbytes), slot⟩ := by
    unfold create_authorization_url at hcreate
    rw [if_neg (by simp [truthyS, hau]), if_neg (by simp [truthyS, hru])]
      at hcreate
    simp only [Except.ok.injEq, Prod.mk.injEq] at hcreate
    exact hcreate.2.symm
  subst hst1
  have hb1 := build_authcode ⟨cid, sec, some tu, some au, some ru, scope⟩
    (some (generate_code_verifier vbytes)) slot code kwargs2 tu rfl htu hcode
  rw [if_pos (by simp [truthyS, hv]), if_pos (by simp [truthyS, hv])] at hb1
  refine ⟨rfl, ?_, ?_, ?_⟩
  · unfold fetch_token
    rw [hb1]
    cases hp : process_token_response resp now with
    | error e =>
      dsimp only [Option.map]
      rw [alist_get_update_of_not_has _ _ _ hk2, alist_get_insert_self]
      rfl
    | ok td =>
      dsimp only [Option.map]
      rw [alist_get_update_of_not_has _ _ _ hk2, alist_get_insert_self]
      rfl
  · unfold fetch_token
    rw [hb1]
    dsimp only
    cases hp : process_token_response resp now with
    | error e => rfl
    | ok td => rfl
  · cases hp : process_token_response resp now with
    | error e =>
      have hstate2 : (fetch_token
          ⟨⟨cid, sec, some tu, some au, some ru, scope⟩,
            some (generate_code_verifier vbytes), slot⟩
          ⟨some code, none, none, "authorization_code", kwargs2⟩
          resp now).state =
          ⟨⟨cid, sec, some tu, some au, some ru, scope⟩, none, slot⟩ := by
        unfold fetch_token
        rw [hb1]
        dsimp only
        rw [hp]
      rw [hstate2]
      exact fetch_authcode_sends_no_verifier
        ⟨cid, sec, some tu, some au, some ru, scope⟩ slot code kwargs3 tu
        resp2 now2 rfl htu hcode hk3
    | ok td =>
      have hstate2 : (fetch_token
          ⟨⟨cid, sec, some tu, some au, some ru, scope⟩,
            some (generate_code_verifier vbytes), slot⟩
          ⟨some code, none, none, "authorization_code", kwargs2⟩
          resp now).state =
          ⟨⟨cid, sec, some tu, some au, some ru, scope⟩, none, some td⟩ := by
        unfold fetch_token
        rw [hb1]
        dsimp only
        rw [hp]
      rw [hstate2]
      exact fetch_authcode_sends_no_verifier
        ⟨cid, sec, some tu, some au, some ru, scope⟩ (some td) code kwargs3 tu
        resp2 now2 rfl htu hcode hk3

set_option maxRecDepth 10000 in
/-- C3 witness: the PKCE consume cycle at one concrete client — the
verifier `AA` (from the zero byte) is sent on the first
authorization-code exchange and absent from the second. -/
theorem C3_pkce_verifier_consumed_witness :
    (⟨⟨"cid", none, some "t", some "a", some "b", []⟩, some "AA", none⟩ :
        ClientState).code_verifier = some (generate_code_verifier [0])
    ∧ (fetch_token ⟨⟨"cid", none, some "t", some "a", some "b", []⟩,
        some "AA", none⟩
        ⟨some "c", none, none, "authorization_code", []⟩ ⟨400, none, ""⟩
        0).sent.map (fun p => alist_get p.1 "code_verifier") =
      some (some (.str (generate_code_verifier [0])))
    ∧ (fetch_token ⟨⟨"cid", none, some "t", some "a", some "b", []⟩,
        some "AA", none⟩
        ⟨some "c", none, none, "authorization_code", []⟩ ⟨400, none, ""⟩
        0).state.code_verifier = none
    ∧ (fetch_token
        (fetch_token ⟨⟨"cid", none, some "t", some "a", some "b", []⟩,
          some "AA", none⟩
          ⟨some "c", none, none, "authorization_code", []⟩ ⟨400, none, ""⟩
          0).state
        ⟨some "c", none, none, "authorization_code", []⟩ ⟨400, none, ""⟩
        0).sent.map (fun p => alist_get p.1 "code_verifier") = some none :=
  C3_pkce_verifier_consumed "cid" "t" "a" "b" "c" "fs" none [] none none
    (some "s") [] [] [] [0] ⟨400, none, ""⟩ ⟨400, none, ""⟩ 0 0
    ("a?response_type=code&client_id=cid&redirect_uri=b&state=s&code_challenge=WLsRnDVROkUdJNwg7w6QMeyFs1v8kZ0mPn5dmGiQnLU&code_challenge_method=S256",
      "s")
    ⟨⟨"cid", none, some "t", some "a", some "b", []⟩, some "AA", none⟩
    (by decide) (by decide) (by decide) (by decide) (by decide) rfl rfl
    (by rfl)

theorem wire_body_id (d : Dict) (h : d.all (fun p => !(p.2.isNull)) = true) :
    wire_body d = d := by
  unfold wire_body
  exact List.filter_eq_self.mpr (by simpa [List.all_eq_true] using h)

/-- The password-grant request body is exactly the section-4.3
parameter set (with the configured secret in the body) followed by the
caller's extra parameters. -/
theorem build_password_shape (cid csec tu ru un pw : String)
    (au : Option String) (scope : List String) (cv : Option String)
    (slot : Option TokenRecord) (kw : Dict)
    (htu : tu ≠ "") (hsec : csec ≠ "") (hun : un ≠ "") (hpw : pw ≠ "")
    (hd : alist_disjoint kw (password_base cid csec un pw scope) = true)
    (hn : (alist_keys kw).Nodup) :
    build_token_request ⟨cid, some csec, some tu, au, some ru, scope⟩ cv slot
        ⟨none, some un, some pw, "password", kw⟩ =
      .ok (password_base cid csec un pw scope ++ kw, none, cv) := by
  have hss : secret_step ⟨cid, some csec, some tu, au, some ru, scope⟩
      "password" kw
      [("grant_type", JsonValue.str "password"), ("client_id", JsonValue.str cid)] =
      ([("grant_type", JsonValue.str "password"), ("client_id", JsonValue.str cid),
        ("client_secret", JsonValue.str csec)], none) := by
    unfold secret_step
    rw [if_pos (by simp [truthyS, hsec]), if_pos (by simp)]
    rw [alist_insert_of_not_has _ _ _ (by simp [alist_has])]
    rfl
  unfold build_token_request
  rw [if_neg (by simp [truthyS, htu])]
  dsimp only
  rw [if_neg (by decide), if_pos (by decide)]
  rw [if_neg (by simp [truthyS, hun, hpw])]
  rw [hss]
  dsimp only
  simp only [Option.getD_some]
  by_cases hsc : (scope != ([] : List String)) = true
  · rw [if_pos hsc]
    have hbase : alist_insert (alist_insert (alist_insert
        [("grant_type", JsonValue.str "password"),
          ("client_id", JsonValue.str cid),
          ("client_secret", JsonValue.str csec)]
        "username" (JsonValue.str un)) "password" (JsonValue.str pw))
        "scope" (JsonValue.str (joinScope scope)) =
        password_base cid csec un pw scope := by
      simp [alist_insert, alist_has, password_base,
        (by simpa using hsc : scope ≠ [])]
    rw [hbase, alist_update_disjoint _ _ hd hn]
  · rw [if_neg hsc]
    have hbase : alist_insert (alist_insert
        [("grant_type", JsonValue.str "password"),
          ("client_id", JsonValue.str cid),
          ("client_secret", JsonValue.str csec)]
        "username" (JsonValue.str un)) "password" (JsonValue.str pw) =
        password_base cid csec un pw scope := by
      simp [alist_insert, alist_has, password_base,
        (by simpa using hsc : ¬scope ≠ [])]
    rw [hbase, alist_update_disjoint _ _ hd hn]

/-- The client-credentials request body is exactly the section-4.3
parameter set followed by the caller's extra parameters. -/
theorem build_client_credentials_shape (cid csec tu ru : String)
    (au : Option String) (scope : List String) (cv : Option String)
    (slot : Option TokenRecord) (kw : Dict)
    (htu : tu ≠ "") (hsec : csec ≠ "")
    (hd : alist_disjoint kw (client_credentials_base cid csec scope) = true)
    (hn : (alist_keys kw).Nodup) :
    build_token_request ⟨cid, some csec, some tu, au, some ru, scope⟩ cv slot
        ⟨none, none, none, "client_credentials", kw⟩ =
      .ok (client_credentials_base cid csec scope ++ kw, none, cv) := by
  have hss : secret_step ⟨cid, some csec, some tu, au, some ru, scope⟩
      "client_credentials" kw
      [("grant_type", JsonValue.str "client_credentials"),
        ("client_id", JsonValue.str cid)] =
      ([("grant_type", JsonValue.str "client_credentials"),
        ("client_id", JsonValue.str cid),
        ("client_secret", JsonValue.str csec)], none) := by
    unfold secret_step
    rw [if_pos (by simp [truthyS, hsec]), if_pos (by simp)]
    rw [alist_insert_of_not_has _ _ _ (by simp [alist_has])]
    rfl
  unfold build_token_request
  rw [if_neg (by simp [truthyS, htu])]
  dsimp only
  rw [if_neg (by decide), if_neg (by decide), if_pos (by decide)]
  rw [hss]
  dsimp only
  by_cases hsc : (scope != ([] : List String)) = true
  · rw [if_pos hsc]
    have hbase : alist_insert
        [("grant_type", JsonValue.str "client_credentials"),
          ("client_id", JsonValue.str cid),
          ("client_secret", JsonValue.str csec)]
        "scope" (JsonValue.str (joinScope scope)) =
        client_credentials_base cid csec scope := by
      simp [alist_insert, alist_has, client_credentials_base,
        (by simpa using hsc : scope ≠ [])]
    rw [hbase, alist_update_disjoint _ _ hd hn]
  · rw [if_neg hsc]
    have hbase : ([("grant_type", JsonValue.str "client_credentials"),
        ("client_id", JsonValue.str cid),
        ("client_secret", JsonValue.str csec)]) =
        client_credentials_base cid csec scope := by
      simp [client_credentials_base, (by simpa using hsc : ¬scope ≠ [])]
    rw [hbase, alist_update_disjoint _ _ hd hn]

/-- The refresh-token request body, when the caller supplies no
refresh token and the store holds a record carrying one, is exactly
the section-4.3 parameter set with the stored token followed by the
caller's extra parameters. -/
theorem build_refresh_shape (cid csec tu ru : String)
    (au : Option String) (scope : List String) (cv : Option String)
    (tokrec : TokenRecord) (rtv : JsonValue) (kw : Dict)
    (htu : tu ≠ "") (hsec : csec ≠ "")
    (hk : alist_has kw "refresh_token" = false)
    (htr1 : tokrec ≠ ([] : Dict))
    (htr2 : alist_get tokrec "refresh_token" = some rtv)
    (hd : alist_disjoint kw (refresh_base cid csec rtv) = true)
    (hn : (alist_keys kw).Nodup) :
    build_token_request ⟨cid, some csec, some tu, au, some ru, scope⟩ cv
        (some tokrec) ⟨none, none, none, "refresh_token", kw⟩ =
      .ok (refresh_base cid csec rtv ++ kw, none, cv) := by
  have hss : secret_step ⟨cid, some csec, some tu, au, some ru, scope⟩
      "refresh_token" kw
      [("grant_type", JsonValue.str "refresh_token"),
        ("client_id", JsonValue.str cid)] =
      ([("grant_type", JsonValue.str "refresh_token"),
        ("client_id", JsonValue.str cid),
        ("client_secret", JsonValue.str csec)], none) := by
    unfold secret_step
    rw [if_pos (by simp [truthyS, hsec]), if_pos (by simp)]
    rw [alist_insert_of_not_has _ _ _ (by simp [alist_has])]
    rfl
  unfold build_token_request
  rw [if_neg (by simp [truthyS, htu])]
  dsimp only
  rw [if_neg (by decide), if_neg (by decide), if_neg (by decide),
    if_pos (by decide)]
  rw [hss]
  dsimp only
  rw [if_pos (by
    rw [show alist_get kw "refresh_token" = none from
      alist_get_eq_none_of_not_has _ _ hk]
    rfl)]
  rw [if_neg (by simp [htr1, alist_has_of_get_eq_some _ _ _ htr2])]
  rw [htr2]
  simp only [Option.getD_some]
  have hbase : alist_insert
      [("grant_type", JsonValue.str "refresh_token"),
        ("client_id", JsonValue.str cid),
        ("client_secret", JsonValue.str csec)]
      "refresh_token" rtv = refresh_base cid csec rtv := by
    simp [alist_insert, alist_has, refresh_base]
  rw [hbase, alist_update_disjoint _ _ hd hn]

/-- The authorization-code request body under HTTP Basic
authentication: the secret moves to the `(client_id, client_secret)`
Basic pair and stays out of the body, which is exactly the section-4.3
parameter set followed by the caller's extra parameters — including
the `use_basic_auth` flag itself, which `fetch_token` never removes
from its kwargs. -/
theorem build_authcode_basic_shape (cid csec tu ru code : String)
    (au : Option String) (scope : List String) (cv : Option String)
    (slot : Option TokenRecord) (kw : Dict)
    (htu : tu ≠ "") (hsec : csec ≠ "") (hcode : code ≠ "")
    (hub : ((alist_get kw "use_basic_auth").getD JsonValue.null).truthy = true)
    (hd : alist_disjoint kw (authcode_base cid code ru cv) = true)
    (hn : (alist_keys kw).Nodup) :
    build_token_request ⟨cid, some csec, some tu, au, some ru, scope⟩ cv slot
        ⟨some code, none, none, "authorization_code", kw⟩ =
      .ok (authcode_base cid code ru cv ++ kw, some (cid, csec),
        if truthyS cv = true then none else cv) := by
  have hss : secret_step ⟨cid, some csec, some tu, au, some ru, scope⟩
      "authorization_code" kw
      [("grant_type", JsonValue.str "authorization_code"),
        ("client_id", JsonValue.str cid)] =
      ([("grant_type", JsonValue.str "authorization_code"),
        ("client_id", JsonValue.str cid)], some (cid, csec)) := by
    unfold secret_step
    rw [if_pos (by simp [truthyS, hsec]), if_neg (by simp [hub])]
    rfl
  have hb := build_authcode ⟨cid, some csec, some tu, au, some ru, scope⟩
    cv slot code kw tu rfl htu hcode
  rw [hb]
  dsimp only
  rw [hss]
  dsimp only
  by_cases hcv : truthyS cv = true
  · rw [if_pos hcv, if_pos hcv]
    have hbase : alist_insert (alist_insert (alist_insert
        [("grant_type", JsonValue.str "authorization_code"),
          ("client_id", JsonValue.str cid)]
        "code" (JsonValue.str code)) "redirect_uri" (JsonValue.str ru))
        "code_verifier" (JsonValue.str (cv.getD "")) =
        authcode_base cid code ru cv := by
      simp [alist_insert, alist_has, authcode_base, hcv]
    rw [hbase, alist_update_disjoint _ _ hd hn]
  · rw [if_neg hcv, if_neg hcv]
    have hbase : alist_insert (alist_insert
        [("grant_type", JsonValue.str "authorization_code"),
          ("client_id", JsonValue.str cid)]
        "code" (JsonValue.str code)) "redirect_uri" (JsonValue.str ru) =
        authcode_base cid code ru cv := by
      simp [alist_insert, alist_has, authcode_base, hcv]
    rw [hbase, alist_update_disjoint _ _ hd hn]

/-- C2 counterexample: on the authorization-code grant with
`use_basic_auth` requested, the secret does move to the Basic pair and
out of the body — but the `use_basic_auth` flag itself is read with
`kwargs.get` and never popped (src line 143), so `data.update(kwargs)`
(src line 187) puts the flag into the POST body, contrary to the
claim that the flag is not sent as a body parameter. -/
theorem C2_counterexample :
    build_token_request ⟨"cid", some "sec", some "t", none, some "cb", []⟩
        none none
        ⟨some "ac", none, none, "authorization_code",
          [("use_basic_auth", JsonValue.bool true)]⟩ =
      .ok ([("grant_type", JsonValue.str "authorization_code"),
        ("client_id", JsonValue.str "cid"),
        ("code", JsonValue.str "ac"),
        ("redirect_uri", JsonValue.str "cb"),
        ("use_basic_auth", JsonValue.bool true)],
        some ("cid", "sec"), none)
    ∧ alist_has (wire_body
        [("grant_type", JsonValue.str "authorization_code"),
          ("client_id", JsonValue.str "cid"),
          ("code", JsonValue.str "ac"),
          ("redirect_uri", JsonValue.str "cb"),
          ("use_basic_auth", JsonValue.bool true)]) "use_basic_auth" = true :=
  ⟨rfl, rfl⟩

/-- C2 amended: for each valid grant type the POST body is exactly the
section-4.3 parameter set plus the caller's extras and nothing else;
with no caller-supplied token the refresh-token grant carries the
refresh token loaded from the store; under HTTP Basic authentication
on the authorization-code grant the configured secret appears only in
the Authorization pair and never in the body — but the
`use_basic_auth` flag itself, being one of the extras, is merged into
the body rather than stripped; and the wire encoding sends a body
dict with no `None` values verbatim. -/
theorem C2_exact_request_bodies (cid csec tu ru code un pw : String)
    (au : Option String) (scope : List String) (cv : Option String)
    (slotA : Option TokenRecord) (tokrec : TokenRecord) (rtv : JsonValue)
    (kwA kwB kwC kwD : Dict)
    (htu : tu ≠ "") (hsec : csec ≠ "") (hcode : code ≠ "")
    (hun : un ≠ "") (hpw : pw ≠ "")
    (hub : ((alist_get kwA "use_basic_auth").getD JsonValue.null).truthy = true)
    (hcsA : alist_has kwA "client_secret" = false)
    (hdA : alist_disjoint kwA (authcode_base cid code ru cv) = true)
    (hnA : (alist_keys kwA).Nodup)
    (hdB : alist_disjoint kwB (password_base cid csec un pw scope) = true)
    (hnB : (alist_keys kwB).Nodup)
    (hdC : alist_disjoint kwC (client_credentials_base cid csec scope) = true)
    (hnC : (alist_keys kwC).Nodup)
    (hkD : alist_has kwD "refresh_token" = false)
    (htr1 : tokrec ≠ ([] : Dict))
    (htr2 : alist_get tokrec "refresh_token" = some rtv)
    (hdD : alist_disjoint kwD (refresh_base cid csec rtv) = true)
    (hnD : (alist_keys kwD).Nodup) :
    (build_token_request ⟨cid, some csec, some tu, au, some ru, scope⟩ cv slotA
        ⟨some code, none, none, "authorization_code", kwA⟩ =
      .ok (authcode_base cid code ru cv ++ kwA, some (cid, csec),
        if truthyS cv = true then none else cv))
    ∧ alist_has (authcode_base cid code ru cv ++ kwA) "client_secret" = false
    ∧ alist_has (authcode_base cid code ru cv ++ kwA) "use_basic_auth" = true
    ∧ (build_token_request ⟨cid, some csec, some tu, au, some ru, scope⟩ cv
        slotA ⟨none, some un, some pw, "password", kwB⟩ =
      .ok (password_base cid csec un pw scope ++ kwB, none, cv))
    ∧ (build_token_request ⟨cid, some csec, some tu, au, some ru, scope⟩ cv
        slotA ⟨none, none, none, "client_credentials", kwC⟩ =
      .ok (client_credentials_base cid csec scope ++ kwC, none, cv))
    ∧ (build_token_request ⟨cid, some csec, some tu, au, some ru, scope⟩ cv
        (some tokrec) ⟨none, none, none, "refresh_token", kwD⟩ =
      .ok (refresh_base cid csec rtv ++ kwD, none, cv))
    ∧ alist_get (refresh_base cid csec rtv ++ kwD) "refresh_token" = some rtv
    ∧ (∀ d : Dict, d.all (fun p => !(p.2.isNull)) = true → wire_body d = d) := by
  refine ⟨build_authcode_basic_shape cid csec tu ru code au scope cv slotA kwA
      htu hsec hcode hub hdA hnA, ?_, ?_,
    build_password_shape cid csec tu ru un pw au scope cv slotA kwB
      htu hsec hun hpw hdB hnB,
    build_client_credentials_shape cid csec tu ru au scope cv slotA kwC
      htu hsec hdC hnC,
    build_refresh_shape cid csec tu ru au scope cv tokrec rtv kwD
      htu hsec hkD htr1 htr2 hdD hnD, ?_,
    fun d h => wire_body_id d h⟩
  · rw [alist_has_append, hcsA, Bool.or_false]
    by_cases hcv : truthyS cv = true <;>
      simp [authcode_base, alist_has, hcv]
  · have hkwA : alist_has kwA "use_basic_auth" = true := by
      rw [alist_has_eq_isSome_get]
      cases hget : alist_get kwA "use_basic_auth" with
      | none => rw [hget] at hub; simp [JsonValue.truthy] at hub
      | some v => rfl
    rw [alist_has_append, hkwA, Bool.or_true]
  · rw [show refresh_base cid csec rtv ++ kwD =
      ("grant_type", JsonValue.str "refresh_token") ::
      ("client_id", JsonValue.str cid) ::
      ("client_secret", JsonValue.str csec) ::
      ("refresh_token", rtv) :: kwD from rfl]
    rw [alist_get_cons, if_neg (by decide), alist_get_cons,
      if_neg (by decide), alist_get_cons, if_neg (by decide),
      alist_get_cons, if_pos (by decide)]

/-- C2 witness: the amended body law at one concrete client — Basic
auth moves the secret to the auth pair (flag still in the body, PKCE
verifier included), the refresh body carries the stored token, and a
null-free body goes over the wire verbatim. -/
theorem C2_exact_request_bodies_witness :
    build_token_request
        ⟨"cid", some "sec", some "t", none, some "cb", ["s1", "s2"]⟩
        (some "ver") none
        ⟨some "ac", none, none, "authorization_code",
          [("use_basic_auth", JsonValue.bool true)]⟩ =
      .ok ([("grant_type", JsonValue.str "authorization_code"),
        ("client_id", JsonValue.str "cid"),
        ("code", JsonValue.str "ac"),
        ("redirect_uri", JsonValue.str "cb"),
        ("code_verifier", JsonValue.str "ver"),
        ("use_basic_auth", JsonValue.bool true)], some ("cid", "sec"), none)
    ∧ build_token_request
        ⟨"cid", some "sec", some "t", none, some "cb", ["s1", "s2"]⟩
        (some "ver") (some [("refresh_token", JsonValue.str "r1")])
        ⟨none, none, none, "refresh_token", []⟩ =
      .ok ([("grant_type", JsonValue.str "refresh_token"),
        ("client_id", JsonValue.str "cid"),
        ("client_secret", JsonValue.str "sec"),
        ("refresh_token", JsonValue.str "r1")], none, some "ver")
    ∧ wire_body [("a", JsonValue.str "x")] = [("a", JsonValue.str "x")] := by
  have h := C2_exact_request_bodies "cid" "sec" "t" "cb" "ac" "u" "p" none
    ["s1", "s2"] (some "ver") none [("refresh_token", JsonValue.str "r1")]
    (JsonValue.str "r1") [("use_basic_auth", JsonValue.bool true)]
    [("audience", JsonValue.str "api")] [] []
    (by decide) (by decide) (by decide) (by decide) (by decide) (by decide)
    (by decide) (by decide) (by decide) (by decide) (by decide) (by decide)
    (by decide) (by decide) (by decide) rfl (by decide) (by decide)
  exact ⟨h.1, h.2.2.2.2.2.1,
    h.2.2.2.2.2.2.2 [("a", JsonValue.str "x")] (by decide)⟩

end OAuthModel
